import Mathlib

/-!
Formal model of the bc-avalara-sync pipeline (utils.js, fetch-bc-products.js,
fetch-avalara-items.js, reconcile-products.js, update-products.js).

The four stages are modelled as pure functions over explicit inputs: the HTTP
layer is abstracted as oracles (page number to response, product id to
custom-field response), and the CSV files as lists of records.  Machine-level
JavaScript behaviours that the scripts rely on (string truthiness, `split`,
`||` defaulting, `Map.set` last-write-wins, invoking `.map` on a plain object)
are modelled explicitly below.
-/

/-! ## JavaScript string primitives -/

/-- Whitespace recognised by the model of `String.prototype.trim` (ASCII core). -/
def isJsSpace (c : Char) : Bool :=
  c == ' ' || c == '\t' || c == '\n' || c == '\r'

/-- Model of `s.trim()`: strip leading and trailing whitespace. -/
def jsTrim (s : String) : String :=
  ⟨((s.toList.dropWhile isJsSpace).reverse.dropWhile isJsSpace).reverse⟩

/-- Model of `s.toLowerCase()` (ASCII range). -/
def jsToLower (s : String) : String :=
  ⟨s.toList.map Char.toLower⟩

/-- Model of the JavaScript `a || b` idiom on strings: empty string is falsy. -/
def jsOr (a b : String) : String :=
  if a == "" then b else a

/-- Normalisation applied both to registry codes and to catalog SKUs in
reconcile-products.js: `x.trim().toLowerCase()`. -/
def normalizeCode (s : String) : String :=
  jsToLower (jsTrim s)

/-! ## Data model -/

/-- Row of avalara-items.csv: `{ itemCode, itemGroup, category }`. -/
structure RegistryItem where
  itemCode : String
  itemGroup : String
  category : String
deriving DecidableEq

/-- Row of bc-products.csv: `{ id, sku, name }`. -/
structure CatalogProduct where
  id : String
  sku : String
  name : String
deriving DecidableEq

/-- Raw BigCommerce product before the `product.x || ''` defaulting in
fetch-bc-products.js; absent fields are `none`. -/
structure RawProduct where
  id : Option String
  sku : Option String
  name : Option String
deriving DecidableEq

/-- Row of products-to-update.csv as written by reconcile-products.js. -/
structure ReconRow where
  product_id : String
  sku : String
  name : String
  exists_in_avalara : String
  is_missing_data : String
  missing_fields : String
  avalara_item_group : String
  avalara_category : String
  reason : String
deriving DecidableEq

/-- Row of product-sync-log.csv as written by update-products.js. -/
structure SyncLogEntry where
  product_id : String
  sku : String
  exists_in_avalara : String
  is_missing_data : String
  status : String
  timestamp : String
  error_message : String
  custom_field_added : String
deriving DecidableEq

/-- Row of products-to-update.csv as read back by update-products.js. -/
structure UpdateRow where
  product_id : String
  sku : String
  name : String
  exists_in_avalara : String
  is_missing_data : String
deriving DecidableEq

/-- BigCommerce custom field (the side-channel attribute). -/
structure CustomField where
  name : String
  value : String
deriving DecidableEq

/-! ## Catalog Fetcher (fetch-bc-products.js) -/

/-- Model of `isValidSKU` from utils.js: for a string-typed `sku`, the check
`sku && typeof sku === 'string' && sku.trim().length > 0` collapses to a
non-empty trimmed string (empty strings are falsy and trim to length 0). -/
def isValidSKU (sku : String) : Bool :=
  0 < (jsTrim sku).length

/-- Model of the per-product mapping `{ id: product.id || '', sku: product.sku
|| '', name: product.name || '' }`. -/
def processRaw (p : RawProduct) : CatalogProduct :=
  { id := p.id.getD "", sku := p.sku.getD "", name := p.name.getD "" }

/-- Per-record log line emitted for each invalid product in
fetch-bc-products.js. -/
def invalidSkuLog (p : CatalogProduct) : String :=
  "Product ID " ++ p.id ++ " (" ++ p.name ++ ") has invalid SKU: \"" ++ p.sku ++ "\""

/-- Observable output of the post-pagination part of fetch-bc-products.js:
the valid/invalid partition, the per-record log lines for the invalid
partition, and the records actually written to bc-products.csv. -/
structure FetchBCOutput where
  validProducts : List CatalogProduct
  invalidProducts : List CatalogProduct
  invalidLogs : List String
  written : List CatalogProduct
deriving DecidableEq

/-- Model of fetchBigCommerceProducts after the paginated fetch returned
`raws`: map, partition by `isValidSKU`, log each invalid record, write the
valid subset.  Invalid records never raise; the function is total. -/
def fetchBigCommerceProducts (raws : List RawProduct) : FetchBCOutput :=
  let processedProducts := raws.map processRaw
  let validProducts := processedProducts.filter (fun p => isValidSKU p.sku)
  let invalidProducts := processedProducts.filter (fun p => !(isValidSKU p.sku))
  { validProducts := validProducts
    invalidProducts := invalidProducts
    invalidLogs := invalidProducts.map invalidSkuLog
    written := validProducts }

/-! ## Pagination helpers (utils.js)

The two loops are `while (true)` loops that stop on a short page or on a
request error; the unbounded loop is rendered with an explicit fuel argument,
and all statements about the loops are fuel-independent above the page that
stops them.  The HTTP layer (`axiosInstance.get` plus the
`response.data.data || response.data` / `response.data.value ||
response.data` envelope unwrapping) is abstracted as an oracle from the page
parameter to either the unwrapped record list or an error message. -/

/-- Result of one pagination run: the accumulated records, the page
parameters requested in order, and the error log lines produced. -/
structure PaginateResult (α : Type) where
  allResults : List α
  requests : List Nat
  errorLogs : List String
deriving DecidableEq

/-- BigCommerce max page size used by paginateBigCommerce. -/
def bcPageLimit : Nat := 250

/-- Avalara page size used by paginateAvalara. -/
def avalaraTop : Nat := 100

/-- Log line of the catch branch in paginateBigCommerce. -/
def bcErrorLog (page : Nat) (msg : String) : String :=
  "Error fetching page " ++ toString page ++ ": " ++ msg

/-- Log line of the catch branch in paginateAvalara. -/
def avErrorLog (skip : Nat) (msg : String) : String :=
  "Error fetching skip " ++ toString skip ++ ": " ++ msg

/-- Loop body of paginateBigCommerce: page-number pagination starting at 1,
stopping on a short page (`data.length < limit`) or on a request error. -/
def paginateBCGo {α : Type} (fetch : Nat → Except String (List α)) :
    Nat → Nat → List α → PaginateResult α
  | 0, _, acc => { allResults := acc, requests := [], errorLogs := [] }
  | fuel + 1, page, acc =>
    match fetch page with
    | Except.error msg =>
        { allResults := acc, requests := [page], errorLogs := [bcErrorLog page msg] }
    | Except.ok data =>
        if data.length < bcPageLimit then
          { allResults := acc ++ data, requests := [page], errorLogs := [] }
        else
          let r := paginateBCGo fetch fuel (page + 1) (acc ++ data)
          { allResults := r.allResults, requests := page :: r.requests,
            errorLogs := r.errorLogs }

/-- Model of paginateBigCommerce from utils.js. -/
def paginateBigCommerce {α : Type} (fetch : Nat → Except String (List α))
    (fuel : Nat) : PaginateResult α :=
  paginateBCGo fetch fuel 1 []

/-- Loop body of paginateAvalara: skip-based pagination starting at 0 and
advancing by `avalaraTop`, stopping on a short page or on a request error. -/
def paginateAvGo {α : Type} (fetch : Nat → Except String (List α)) :
    Nat → Nat → List α → PaginateResult α
  | 0, _, acc => { allResults := acc, requests := [], errorLogs := [] }
  | fuel + 1, skip, acc =>
    match fetch skip with
    | Except.error msg =>
        { allResults := acc, requests := [skip], errorLogs := [avErrorLog skip msg] }
    | Except.ok data =>
        if data.length < avalaraTop then
          { allResults := acc ++ data, requests := [skip], errorLogs := [] }
        else
          let r := paginateAvGo fetch fuel (skip + avalaraTop) (acc ++ data)
          { allResults := r.allResults, requests := skip :: r.requests,
            errorLogs := r.errorLogs }

/-- Model of paginateAvalara from utils.js. -/
def paginateAvalara {α : Type} (fetch : Nat → Except String (List α))
    (fuel : Nat) : PaginateResult α :=
  paginateAvGo fetch fuel 0 []

/-! ## Reconciler (reconcile-products.js) -/

/-- Model of the JavaScript `Map` used for the Avalara lookup, as an
insertion-ordered association list.  `Map.set` replaces the value in place
when the key already exists (last write wins) and appends otherwise. -/
def mapSet (m : List (String × RegistryItem)) (k : String) (v : RegistryItem) :
    List (String × RegistryItem) :=
  if m.any (fun e => e.1 == k) then
    m.map (fun e => if e.1 == k then (k, v) else e)
  else
    m ++ [(k, v)]

/-- Model of `Map.get`. -/
def mapGet (m : List (String × RegistryItem)) (k : String) : Option RegistryItem :=
  (m.find? (fun e => e.1 == k)).map (fun e => e.2)

/-- Lookup construction of reconcile-products.js: for each item with a truthy
trimmed `itemCode` (for strings: trimmed code non-empty), set
`avalaraMap[itemCode.trim().toLowerCase()] = item`. -/
def buildAvalaraMap (items : List RegistryItem) : List (String × RegistryItem) :=
  items.foldl
    (fun m item =>
      if jsTrim item.itemCode == "" then m
      else mapSet m (normalizeCode item.itemCode) item) []

/-- Registry item matching a given normalized key with a non-blank code. -/
def matchesKey (key : String) (it : RegistryItem) : Bool :=
  !(jsTrim it.itemCode == "") && (normalizeCode it.itemCode == key)

/-- Last registry item (in input order) whose non-blank code normalizes to
`key`; this is what last-write-wins leaves in the lookup. -/
def lastMatching (items : List RegistryItem) (key : String) : Option RegistryItem :=
  (items.filter (matchesKey key)).getLast?

/-- The missingFields list the loop body accumulates: the blank checks
`!item.itemGroup || item.itemGroup.trim() === ''` collapse, for string
fields, to a blank trimmed value; `itemGroup` is checked before `category`. -/
def missingFieldsOf (item : RegistryItem) : List String :=
  (if jsTrim item.itemGroup == "" then ["itemGroup"] else []) ++
  (if jsTrim item.category == "" then ["category"] else [])

/-- Per-product body of the reconciliation loop.  Returns the `result` record
it builds and whether the record is pushed onto productsToUpdate (`true`) or
the product is complete and dropped (`false`).  The lookup key is
`product.sku.trim().toLowerCase()`, i.e. `normalizeCode product.sku`. -/
def reconcileProduct (avalaraMap : List (String × RegistryItem))
    (product : CatalogProduct) : ReconRow × Bool :=
  match mapGet avalaraMap (normalizeCode product.sku) with
  | none =>
      ({ product_id := product.id, sku := product.sku, name := product.name,
         exists_in_avalara := "no", is_missing_data := "no", missing_fields := "",
         avalara_item_group := "", avalara_category := "",
         reason := "Product not registered in Avalara" }, true)
  | some avalaraItem =>
      if 0 < (missingFieldsOf avalaraItem).length then
        ({ product_id := product.id, sku := product.sku, name := product.name,
           exists_in_avalara := "yes", is_missing_data := "yes",
           missing_fields := String.intercalate ", " (missingFieldsOf avalaraItem),
           avalara_item_group := avalaraItem.itemGroup,
           avalara_category := avalaraItem.category,
           reason := "Missing required fields: " ++
             String.intercalate ", " (missingFieldsOf avalaraItem) },
         true)
      else
        ({ product_id := product.id, sku := product.sku, name := product.name,
           exists_in_avalara := "yes", is_missing_data := "no", missing_fields := "",
           avalara_item_group := avalaraItem.itemGroup,
           avalara_category := avalaraItem.category, reason := "" }, false)

/-- Rows written to products-to-update.csv, in catalog input order. -/
def reconcileProducts (items : List RegistryItem) (products : List CatalogProduct) :
    List ReconRow :=
  let avalaraMap := buildAvalaraMap items
  products.filterMap (fun product =>
    let r := reconcileProduct avalaraMap product
    if r.2 then some r.1 else none)

/-! ## Updater (update-products.js) -/

/-- Failure raised by an axios call: either a structured HTTP error response
(status code plus optional `data.message`, plus the generic `error.message`)
or a bare failure message. -/
inductive ReqError where
  | response (status : Nat) (dataMessage : Option String) (message : String)
  | plain (message : String)
deriving DecidableEq

/-- Error text built in the per-product catch:
`error.response ? status + ': ' + (error.response.data?.message ||
error.message) : error.message`.  An absent `data.message` is undefined and
falsy; an empty one is falsy as well. -/
def errorMessageOf : ReqError → String
  | ReqError.response status dataMessage message =>
      toString status ++ ": " ++ jsOr (dataMessage.getD "") message
  | ReqError.plain message => message

/-- Model of getExistingCustomFields: a 404 response is converted to an empty
field list, every other failure is rethrown. -/
def getExistingCustomFields (res : Except ReqError (List CustomField)) :
    Except ReqError (List CustomField) :=
  match res with
  | Except.ok fields => Except.ok fields
  | Except.error e =>
      match e with
      | ReqError.response 404 _ _ => Except.ok []
      | _ => Except.error e

/-- Sync-log entry skeleton shared by every branch of the loop body. -/
def mkLogEntry (product : UpdateRow) (status ts errMsg added : String) : SyncLogEntry :=
  { product_id := product.product_id, sku := product.sku,
    exists_in_avalara := product.exists_in_avalara,
    is_missing_data := product.is_missing_data,
    status := status, timestamp := ts, error_message := errMsg,
    custom_field_added := added }

/-- Observable effects of one iteration of the update loop: the log entry
pushed, whether a create-custom-field request was issued, the milliseconds
slept before the next iteration, and the custom fields the product carries
afterwards (`none` when the field fetch itself failed). -/
structure StepResult where
  entry : SyncLogEntry
  createIssued : Bool
  delayMs : Nat
  fieldsAfter : Option (List CustomField)
deriving DecidableEq

/-- Loop body of updateProducts for one product.  `fetchRes` is the raw
custom-fields response, `createRes` the outcome the platform would give a
create call.  Branch order follows the source: marker-present check, 50-field
ceiling check, create call; `await sleep(100)` is reached only on the success
path, and the surrounding try/catch turns any thrown error into a status
`error` entry. -/
def processProduct (fieldName ts : String) (product : UpdateRow)
    (fetchRes : Except ReqError (List CustomField))
    (createRes : Except ReqError Unit) : StepResult :=
  match getExistingCustomFields fetchRes with
  | Except.error e =>
      { entry := mkLogEntry product "error" ts (errorMessageOf e) "no",
        createIssued := false, delayMs := 0, fieldsAfter := none }
  | Except.ok existingFields =>
      if (existingFields.find? (fun field => field.name == fieldName)).isSome then
        { entry := mkLogEntry product "skipped" ts "Custom field already exists" "no",
          createIssued := false, delayMs := 0, fieldsAfter := some existingFields }
      else if 50 ≤ existingFields.length then
        { entry := mkLogEntry product "error" ts
            "Maximum custom fields limit reached (50)" "no",
          createIssued := false, delayMs := 0, fieldsAfter := some existingFields }
      else
        match createRes with
        | Except.ok _ =>
            { entry := mkLogEntry product "success" ts "" "yes",
              createIssued := true, delayMs := 100,
              fieldsAfter := some (existingFields ++ [{ name := fieldName, value := "1" }]) }
        | Except.error e =>
            { entry := mkLogEntry product "error" ts (errorMessageOf e) "no",
              createIssued := true, delayMs := 0, fieldsAfter := some existingFields }

/-- Defensive re-filter of updateProducts:
`exists_in_avalara === 'no' || is_missing_data === 'yes'`. -/
def needsUpdate (row : UpdateRow) : Bool :=
  row.exists_in_avalara == "no" || row.is_missing_data == "yes"

/-- The whole per-product loop: every filtered row is processed in order with
its oracle responses. -/
def runUpdater (fieldName ts : String)
    (fetchO : UpdateRow → Except ReqError (List CustomField))
    (createO : UpdateRow → Except ReqError Unit)
    (rows : List UpdateRow) : List StepResult :=
  (rows.filter needsUpdate).map
    (fun row => processProduct fieldName ts row (fetchO row) (createO row))

/-- The syncLog array accumulated by the loop: one entry per processed row. -/
def syncLogOf (results : List StepResult) : List SyncLogEntry :=
  results.map (fun r => r.entry)

/-! ## Updater summary (update-products.js, post-loop)

The summary template interpolates
`syncLog.filter(l => l.status === 'error').reduce((acc, l) => ..., {}).map(...)`.
The reduce produces a plain JavaScript object, and `.map` is then invoked on
that object.  The minimal value universe below distinguishes arrays from
plain objects so that this method dispatch can be modelled. -/

/-- Minimal JavaScript value universe for the breakdown expression: an
insertion-ordered string-keyed object with numeric values, or an array of
key/count entries. -/
inductive JsVal where
  | object : List (String × Nat) → JsVal
  | array : List (String × Nat) → JsVal
deriving DecidableEq

/-- Leading token of an error message: `l.error_message.split(':')[0] ||
'Unknown'`. -/
def errorTypeOf (e : SyncLogEntry) : String :=
  jsOr ((e.error_message.splitOn ":").headD "") "Unknown"

/-- Model of `acc[errorType] = (acc[errorType] || 0) + 1` on a plain object. -/
def objIncr (props : List (String × Nat)) (key : String) : List (String × Nat) :=
  if props.any (fun p => p.1 == key) then
    props.map (fun p => if p.1 == key then (p.1, p.2 + 1) else p)
  else props ++ [(key, 1)]

/-- The reduce in the summary template: tally error entries by leading token,
starting from the plain-object accumulator `{}`. -/
def errorBreakdownReduce (syncLog : List SyncLogEntry) : JsVal :=
  JsVal.object
    ((syncLog.filter (fun e => e.status == "error")).foldl
      (fun acc e => objIncr acc (errorTypeOf e)) [])

/-- Message of the TypeError Node raises when `.map` is invoked on a value
that is not an array. -/
def jsMapTypeError : String :=
  "TypeError: syncLog.filter(...).reduce(...).map is not a function"

/-- Line produced by the `.map` callback for one breakdown entry. -/
def breakdownLineOf (p : String × Nat) : String :=
  "  - " ++ p.1 ++ ": " ++ toString p.2 ++ " products"

/-- Invoking `.map` on a JavaScript value: defined on arrays, a TypeError on
plain objects. -/
def jsArrayMapLines (v : JsVal) (f : String × Nat → String) :
    Except String (List String) :=
  match v with
  | JsVal.array entries => Except.ok (entries.map f)
  | JsVal.object _ => Except.error jsMapTypeError

/-- Evaluation of the error-breakdown interpolation inside the summary
template of updateProducts. -/
def updateSummaryBreakdown (syncLog : List SyncLogEntry) : Except String (List String) :=
  jsArrayMapLines (errorBreakdownReduce syncLog) breakdownLineOf

/-! ## Concrete inputs used by closed theorems -/

/-- Single flagged row used as the concrete failing input for the summary. -/
def c1Rows : List UpdateRow :=
  [{ product_id := "101", sku := "SKU1", name := "A",
     exists_in_avalara := "no", is_missing_data := "no" }]

/-- Custom-field oracle for the concrete run: the product has no fields. -/
def c1FetchO : UpdateRow → Except ReqError (List CustomField) :=
  fun _ => Except.ok []

/-- Create oracle for the concrete run: the create call succeeds. -/
def c1CreateO : UpdateRow → Except ReqError Unit :=
  fun _ => Except.ok ()

/-- Log entry the concrete run produces for its single row. -/
def c1Entry : SyncLogEntry :=
  { product_id := "101", sku := "SKU1", exists_in_avalara := "no",
    is_missing_data := "no", status := "success", timestamp := "t0",
    error_message := "", custom_field_added := "yes" }

/-! ## Helper lemmas: the JavaScript Map model -/

theorem find?_replace_self (m : List (String × RegistryItem)) (k : String) (v : RegistryItem)
    (h : m.any (fun e => e.1 == k) = true) :
    (m.map (fun e => if e.1 == k then (k, v) else e)).find? (fun e => e.1 == k) = some (k, v) := by
  induction m with
  | nil => simp at h
  | cons p rest ih =>
    cases hp : (p.1 == k) with
    | true =>
      simp only [List.map_cons, if_pos hp]
      rw [List.find?_cons]
      simp only [beq_self_eq_true]
    | false =>
      have hnp : ¬((p.1 == k) = true) := by rw [hp]; exact Bool.false_ne_true
      have h' : rest.any (fun e => e.1 == k) = true := by
        simpa [List.any_cons, hp] using h
      simp only [List.map_cons, if_neg hnp]
      rw [List.find?_cons]
      simp only [hp]
      exact ih h'

theorem find?_replace_other (m : List (String × RegistryItem)) (k k' : String) (v : RegistryItem)
    (hne : (k == k') = false) :
    (m.map (fun e => if e.1 == k then (k, v) else e)).find? (fun e => e.1 == k') =
      m.find? (fun e => e.1 == k') := by
  induction m with
  | nil => rfl
  | cons p rest ih =>
    cases hp : (p.1 == k) with
    | true =>
      have hpk : p.1 = k := eq_of_beq hp
      simp only [List.map_cons, if_pos hp]
      rw [List.find?_cons, List.find?_cons]
      simp only [hpk, hne]
      exact ih
    | false =>
      have hnp : ¬((p.1 == k) = true) := by rw [hp]; exact Bool.false_ne_true
      simp only [List.map_cons, if_neg hnp]
      rw [List.find?_cons, List.find?_cons]
      cases hq : (p.1 == k') with
      | true => simp only [hq]
      | false => simp only [hq]; exact ih

theorem mapGet_set_self (m : List (String × RegistryItem)) (k : String) (v : RegistryItem) :
    mapGet (mapSet m k v) k = some v := by
  unfold mapGet mapSet
  by_cases h : m.any (fun e => e.1 == k) = true
  · rw [if_pos h, find?_replace_self m k v h]
    rfl
  · rw [if_neg h, List.find?_append]
    have hb : m.any (fun e => e.1 == k) = false := by
      cases hx : m.any (fun e => e.1 == k)
      · rfl
      · exact absurd hx h
    have hnone : m.find? (fun e => e.1 == k) = none :=
      List.find?_eq_none.mpr (by
        intro x hx hcontra
        exact List.any_eq_false.mp hb x hx hcontra)
    rw [hnone, List.find?_cons]
    simp only [beq_self_eq_true]
    rfl

theorem mapGet_set_other (m : List (String × RegistryItem)) (k k' : String) (v : RegistryItem)
    (hne : (k == k') = false) :
    mapGet (mapSet m k v) k' = mapGet m k' := by
  unfold mapGet mapSet
  by_cases h : m.any (fun e => e.1 == k) = true
  · rw [if_pos h, find?_replace_other m k k' v hne]
  · rw [if_neg h, List.find?_append]
    have hsingle : ([(k, v)] : List (String × RegistryItem)).find? (fun e => e.1 == k') = none := by
      rw [List.find?_cons]
      simp only [hne]
      rfl
    rw [hsingle]
    cases m.find? (fun e => e.1 == k') <;> rfl

theorem getLast?_cons_of_ne_nil {α : Type} (a : α) (l : List α) (h : l ≠ []) :
    (a :: l).getLast? = l.getLast? := by
  cases l with
  | nil => exact absurd rfl h
  | cons b t => rfl

theorem mapGet_buildStep_foldl (key : String) (items : List RegistryItem) :
    ∀ m : List (String × RegistryItem),
      mapGet (items.foldl
        (fun m item =>
          if jsTrim item.itemCode == "" then m
          else mapSet m (normalizeCode item.itemCode) item) m) key =
      ((items.filter (matchesKey key)).getLast?).elim (mapGet m key) some := by
  induction items with
  | nil => intro m; rfl
  | cons it rest ih =>
    intro m
    rw [List.foldl_cons, ih]
    by_cases hm : matchesKey key it = true
    · have hparts := hm
      simp only [matchesKey, Bool.and_eq_true, Bool.not_eq_true'] at hparts
      obtain ⟨hcode, hkey⟩ := hparts
      have hkeyEq : normalizeCode it.itemCode = key := eq_of_beq hkey
      have hncode : ¬((jsTrim it.itemCode == "") = true) := by
        rw [hcode]; exact Bool.false_ne_true
      rw [show (if jsTrim it.itemCode == "" then m
          else mapSet m (normalizeCode it.itemCode) it) = mapSet m key it by
        rw [if_neg hncode, hkeyEq]]
      rw [List.filter_cons_of_pos hm]
      by_cases hrest : rest.filter (matchesKey key) = []
      · rw [hrest]
        simp [mapGet_set_self]
      · rw [getLast?_cons_of_ne_nil it _ hrest]
        obtain ⟨x, hx⟩ := Option.isSome_iff_exists.mp (List.getLast?_isSome.mpr hrest)
        rw [hx]
        rfl
    · have hm' : matchesKey key it = false := by
        cases hx : matchesKey key it
        · rfl
        · exact absurd hx hm
      rw [List.filter_cons_of_neg (by rw [hm']; exact Bool.false_ne_true)]
      by_cases hblank : (jsTrim it.itemCode == "") = true
      · rw [if_pos hblank]
      · have ha : (jsTrim it.itemCode == "") = false := by
          cases hx : (jsTrim it.itemCode == "")
          · rfl
          · exact absurd hx hblank
        have hkey : (normalizeCode it.itemCode == key) = false := by
          simpa [matchesKey, ha] using hm'
        rw [if_neg hblank, mapGet_set_other m _ key it hkey]

theorem mapGet_build_eq_lastMatching (items : List RegistryItem) (key : String) :
    mapGet (buildAvalaraMap items) key = lastMatching items key := by
  unfold buildAvalaraMap lastMatching
  rw [mapGet_buildStep_foldl key items []]
  cases (items.filter (matchesKey key)).getLast? <;> rfl

theorem reconcile_no_conflict (m : List (String × RegistryItem)) (p : CatalogProduct) :
    ¬((reconcileProduct m p).1.exists_in_avalara = "no" ∧
      (reconcileProduct m p).1.is_missing_data = "yes") := by
  unfold reconcileProduct
  cases h : mapGet m (normalizeCode p.sku) with
  | none =>
    intro hc
    exact absurd (show ("no" : String) = "yes" from hc.2) (by decide)
  | some item =>
    dsimp only
    split
    · intro hc
      exact absurd (show ("yes" : String) = "no" from hc.1) (by decide)
    · intro hc
      exact absurd (show ("yes" : String) = "no" from hc.1) (by decide)

/-- C3: for every catalog product processed by the Reconciler, the emitted row
never has exists_in_avalara = no and is_missing_data = yes simultaneously, and
whenever the normalized SKU is absent from the registry lookup the row keeps
is_missing_data = no (together with exists_in_avalara = no). -/
theorem c3_absent_never_missing :
    (∀ (items : List RegistryItem) (products : List CatalogProduct) (row : ReconRow),
        row ∈ reconcileProducts items products →
        ¬(row.exists_in_avalara = "no" ∧ row.is_missing_data = "yes")) ∧
    (∀ (m : List (String × RegistryItem)) (p : CatalogProduct),
        mapGet m (normalizeCode p.sku) = none →
        (reconcileProduct m p).1.exists_in_avalara = "no" ∧
        (reconcileProduct m p).1.is_missing_data = "no") := by
  constructor
  · intro items products row hrow
    unfold reconcileProducts at hrow
    obtain ⟨p, _, hpr⟩ := List.mem_filterMap.mp hrow
    dsimp only at hpr
    split at hpr
    · cases hpr
      exact reconcile_no_conflict _ p
    · cases hpr
  · intro m p h
    unfold reconcileProduct
    rw [h]
    exact ⟨rfl, rfl⟩

/-- Witness for C3 at a concrete input: with an empty registry, the single
catalog product yields a flagged row which indeed is not simultaneously
absent and missing-data, and the empty lookup forces exists_in_avalara = no
together with is_missing_data = no. -/
theorem c3_absent_never_missing_witness :
    ¬((reconcileProduct (buildAvalaraMap [])
          { id := "1", sku := "X", name := "A" }).1.exists_in_avalara = "no" ∧
      (reconcileProduct (buildAvalaraMap [])
          { id := "1", sku := "X", name := "A" }).1.is_missing_data = "yes") ∧
    ((reconcileProduct [] { id := "1", sku := "X", name := "A" }).1.exists_in_avalara = "no" ∧
      (reconcileProduct [] { id := "1", sku := "X", name := "A" }).1.is_missing_data = "no") :=
  ⟨c3_absent_never_missing.1 [] [{ id := "1", sku := "X", name := "A" }]
      (reconcileProduct (buildAvalaraMap []) { id := "1", sku := "X", name := "A" }).1
      (by decide),
   c3_absent_never_missing.2 [] { id := "1", sku := "X", name := "A" } rfl⟩

/-- C4: the Reconciler lookup is keyed by trimmed, lowercased registry codes
with the last item winning on duplicate normalized codes, the catalog SKU is
normalized the same way, and whenever some registry item with a non-blank
code normalizes to the product's normalized SKU the built result row has
exists_in_avalara = yes. -/
theorem c4_normalized_lookup_matches (items : List RegistryItem) (product : CatalogProduct)
    (it : RegistryItem) (hmem : it ∈ items)
    (hmatch : matchesKey (normalizeCode product.sku) it = true) :
    mapGet (buildAvalaraMap items) (normalizeCode product.sku) =
      lastMatching items (normalizeCode product.sku) ∧
    (reconcileProduct (buildAvalaraMap items) product).1.exists_in_avalara = "yes" := by
  have hlookup := mapGet_build_eq_lastMatching items (normalizeCode product.sku)
  refine ⟨hlookup, ?_⟩
  have hfilter : it ∈ items.filter (matchesKey (normalizeCode product.sku)) :=
    List.mem_filter.mpr ⟨hmem, hmatch⟩
  have hne : items.filter (matchesKey (normalizeCode product.sku)) ≠ [] :=
    List.ne_nil_of_mem hfilter
  obtain ⟨x, hx⟩ := Option.isSome_iff_exists.mp (List.getLast?_isSome.mpr hne)
  have hsome : mapGet (buildAvalaraMap items) (normalizeCode product.sku) = some x := by
    rw [hlookup]
    unfold lastMatching
    exact hx
  unfold reconcileProduct
  rw [hsome]
  dsimp only
  split <;> rfl

/-- Witness for C4: the catalog SKU " ABC-1 " matches the registry code
"abc-1" after trimming and lowercasing, the lookup returns the (only, hence
last) matching item, and the built row has exists_in_avalara = yes. -/
theorem c4_normalized_lookup_matches_witness :
    mapGet (buildAvalaraMap [{ itemCode := "abc-1", itemGroup := "G", category := "C" }])
        (normalizeCode " ABC-1 ") =
      lastMatching [{ itemCode := "abc-1", itemGroup := "G", category := "C" }]
        (normalizeCode " ABC-1 ") ∧
    (reconcileProduct
        (buildAvalaraMap [{ itemCode := "abc-1", itemGroup := "G", category := "C" }])
        { id := "2", sku := " ABC-1 ", name := "B" }).1.exists_in_avalara = "yes" :=
  c4_normalized_lookup_matches
    [{ itemCode := "abc-1", itemGroup := "G", category := "C" }]
    { id := "2", sku := " ABC-1 ", name := "B" }
    { itemCode := "abc-1", itemGroup := "G", category := "C" }
    (by decide) (by decide)

/-! ## Updater claims -/

/-- C2 (amended): the Updater's 100 ms rate-limit delay is awaited only after
a product whose outcome is success; skipped and error outcomes reach the next
product without any delay. -/
theorem c2_delay_only_after_success (fieldName ts : String) (row : UpdateRow)
    (fetchRes : Except ReqError (List CustomField)) (createRes : Except ReqError Unit) :
    (processProduct fieldName ts row fetchRes createRes).delayMs =
      if (processProduct fieldName ts row fetchRes createRes).entry.status = "success"
      then 100 else 0 := by
  unfold processProduct
  cases h : getExistingCustomFields fetchRes with
  | error e => rfl
  | ok fields =>
    dsimp only
    split
    · rfl
    · split
      · rfl
      · cases createRes with
        | ok u => rfl
        | error e => rfl

/-- C2 counterexample: a product whose marker field already exists is recorded
as skipped, and no 100 ms delay is awaited before the next product, refuting
the claim that the delay is applied regardless of outcome. -/
theorem c2_skipped_awaits_no_delay_cex :
    (processProduct "avalara_sync" "t0"
        { product_id := "7", sku := "S", name := "N",
          exists_in_avalara := "no", is_missing_data := "no" }
        (Except.ok [{ name := "avalara_sync", value := "1" }])
        (Except.ok ())).entry.status = "skipped" ∧
    ¬((processProduct "avalara_sync" "t0"
        { product_id := "7", sku := "S", name := "N",
          exists_in_avalara := "no", is_missing_data := "no" }
        (Except.ok [{ name := "avalara_sync", value := "1" }])
        (Except.ok ())).delayMs = 100) := by
  decide

/-- C5: when the fetched attribute list does not contain the marker attribute
and already has 50 or more entries, the Updater records status = error with
custom_field_added = no and the ceiling-citing message, and issues no
create-attribute call. -/
theorem c5_ceiling_blocks_create (fieldName ts : String) (row : UpdateRow)
    (fields : List CustomField) (createRes : Except ReqError Unit)
    (hno : fields.find? (fun field => field.name == fieldName) = none)
    (hceil : 50 ≤ fields.length) :
    (processProduct fieldName ts row (Except.ok fields) createRes).entry.status = "error" ∧
    (processProduct fieldName ts row (Except.ok fields) createRes).entry.custom_field_added
      = "no" ∧
    (processProduct fieldName ts row (Except.ok fields) createRes).entry.error_message =
      "Maximum custom fields limit reached (50)" ∧
    (processProduct fieldName ts row (Except.ok fields) createRes).createIssued = false := by
  unfold processProduct
  dsimp only [getExistingCustomFields]
  rw [hno]
  rw [show (none : Option CustomField).isSome = false from rfl]
  rw [if_neg Bool.false_ne_true, if_pos hceil]
  exact ⟨rfl, rfl, rfl, rfl⟩

/-- Witness for C5: a product with 50 unrelated custom fields and no marker is
recorded as an error citing the ceiling, with no create call issued. -/
theorem c5_ceiling_blocks_create_witness :
    (processProduct "avalara_sync" "t0"
        { product_id := "9", sku := "S9", name := "N9",
          exists_in_avalara := "no", is_missing_data := "no" }
        (Except.ok (List.replicate 50 { name := "f", value := "v" }))
        (Except.ok ())).entry.status = "error" ∧
    (processProduct "avalara_sync" "t0"
        { product_id := "9", sku := "S9", name := "N9",
          exists_in_avalara := "no", is_missing_data := "no" }
        (Except.ok (List.replicate 50 { name := "f", value := "v" }))
        (Except.ok ())).entry.custom_field_added = "no" ∧
    (processProduct "avalara_sync" "t0"
        { product_id := "9", sku := "S9", name := "N9",
          exists_in_avalara := "no", is_missing_data := "no" }
        (Except.ok (List.replicate 50 { name := "f", value := "v" }))
        (Except.ok ())).entry.error_message = "Maximum custom fields limit reached (50)" ∧
    (processProduct "avalara_sync" "t0"
        { product_id := "9", sku := "S9", name := "N9",
          exists_in_avalara := "no", is_missing_data := "no" }
        (Except.ok (List.replicate 50 { name := "f", value := "v" }))
        (Except.ok ())).createIssued = false :=
  c5_ceiling_blocks_create "avalara_sync" "t0"
    { product_id := "9", sku := "S9", name := "N9",
      exists_in_avalara := "no", is_missing_data := "no" }
    (List.replicate 50 { name := "f", value := "v" }) (Except.ok ())
    (by decide) (by decide)

/-- C9: if a product's first Updater run succeeds (marker created) and the
platform retains the resulting attribute list, then a second run over the
same reconciliation row is recorded as skipped with custom_field_added = no,
whatever the second run's create oracle would have answered. -/
theorem c9_second_run_skipped (fieldName ts1 ts2 : String) (row1 row2 : UpdateRow)
    (fields fields' : List CustomField) (create1 create2 : Except ReqError Unit)
    (h1 : (processProduct fieldName ts1 row1 (Except.ok fields) create1).entry.status
      = "success")
    (h2 : (processProduct fieldName ts1 row1 (Except.ok fields) create1).fieldsAfter
      = some fields') :
    (processProduct fieldName ts2 row2 (Except.ok fields') create2).entry.status
      = "skipped" ∧
    (processProduct fieldName ts2 row2 (Except.ok fields') create2).entry.custom_field_added
      = "no" := by
  unfold processProduct at h1 h2 ⊢
  dsimp only [getExistingCustomFields] at h1 h2 ⊢
  by_cases hfind : (fields.find? fun field => field.name == fieldName).isSome = true
  · rw [if_pos hfind] at h1
    exact absurd (show ("skipped" : String) = "success" from h1) (by decide)
  · rw [if_neg hfind] at h1 h2
    by_cases hceil : 50 ≤ fields.length
    · rw [if_pos hceil] at h1
      exact absurd (show ("error" : String) = "success" from h1) (by decide)
    · rw [if_neg hceil] at h1 h2
      cases create1 with
      | error e =>
        exact absurd (show ("error" : String) = "success" from h1) (by decide)
      | ok u =>
        injection h2 with hf
        subst hf
        have hn : fields.find? (fun field => field.name == fieldName) = none :=
          Option.not_isSome_iff_eq_none.mp (by simpa using hfind)
        have hmem : ((fields ++ [({ name := fieldName, value := "1" } : CustomField)]).find?
            (fun field => field.name == fieldName)).isSome = true := by
          rw [List.find?_append, hn, List.find?_cons]
          simp
        rw [if_pos hmem]
        exact ⟨rfl, rfl⟩

/-- Witness for C9: a product with no custom fields succeeds on the first run
and produces the marker list; the second run over that list is skipped with
no field added. -/
theorem c9_second_run_skipped_witness :
    (processProduct "avalara_sync" "t1"
        { product_id := "3", sku := "S3", name := "N3",
          exists_in_avalara := "no", is_missing_data := "no" }
        (Except.ok [{ name := "avalara_sync", value := "1" }])
        (Except.ok ())).entry.status = "skipped" ∧
    (processProduct "avalara_sync" "t1"
        { product_id := "3", sku := "S3", name := "N3",
          exists_in_avalara := "no", is_missing_data := "no" }
        (Except.ok [{ name := "avalara_sync", value := "1" }])
        (Except.ok ())).entry.custom_field_added = "no" :=
  c9_second_run_skipped "avalara_sync" "t0" "t1"
    { product_id := "3", sku := "S3", name := "N3",
      exists_in_avalara := "no", is_missing_data := "no" }
    { product_id := "3", sku := "S3", name := "N3",
      exists_in_avalara := "no", is_missing_data := "no" }
    [] [{ name := "avalara_sync", value := "1" }] (Except.ok ()) (Except.ok ())
    (by decide) (by decide)

/-- C1 (code bug): after the loop, the sync log holds exactly one entry per
processed product, but evaluating the summary template's error-breakdown
expression always raises a TypeError (the reduce yields a plain object and
`.map` is invoked on it, `Object.entries` being absent), so the aggregate
summary is never written; shown both in general and at a concrete
single-product run whose log entry is a success. -/
theorem c1_updater_log_then_summary_typeerror :
    (∀ (fieldName ts : String) (fetchO : UpdateRow → Except ReqError (List CustomField))
        (createO : UpdateRow → Except ReqError Unit) (rows : List UpdateRow),
        (syncLogOf (runUpdater fieldName ts fetchO createO rows)).length =
          (rows.filter needsUpdate).length) ∧
    (∀ syncLog : List SyncLogEntry,
        updateSummaryBreakdown syncLog = Except.error jsMapTypeError) ∧
    syncLogOf (runUpdater "avalara_sync" "t0" c1FetchO c1CreateO c1Rows) = [c1Entry] ∧
    updateSummaryBreakdown
        (syncLogOf (runUpdater "avalara_sync" "t0" c1FetchO c1CreateO c1Rows)) =
      Except.error jsMapTypeError := by
  refine ⟨?_, ?_, ?_, ?_⟩
  · intro fieldName ts fetchO createO rows
    unfold syncLogOf runUpdater
    rw [List.length_map, List.length_map]
  · intro syncLog
    rfl
  · rfl
  · rfl

/-! ## Catalog Fetcher claim -/

/-- C6: a catalog product whose SKU is empty or whitespace-only after trimming
is excluded from the written output, lands in the invalid partition, gets its
own log line, and the (total) fetch output is produced all the same. -/
theorem c6_blank_sku_excluded (raws : List RawProduct) (r : RawProduct)
    (hmem : r ∈ raws) (hblank : jsTrim (r.sku.getD "") = "") :
    processRaw r ∉ (fetchBigCommerceProducts raws).written ∧
    processRaw r ∈ (fetchBigCommerceProducts raws).invalidProducts ∧
    invalidSkuLog (processRaw r) ∈ (fetchBigCommerceProducts raws).invalidLogs ∧
    (fetchBigCommerceProducts raws).invalidLogs.length =
      (fetchBigCommerceProducts raws).invalidProducts.length := by
  have hinv : isValidSKU (processRaw r).sku = false := by
    unfold isValidSKU processRaw
    dsimp only
    rw [hblank]
    rfl
  have hmemP : processRaw r ∈ raws.map processRaw := List.mem_map_of_mem processRaw hmem
  unfold fetchBigCommerceProducts
  dsimp only
  refine ⟨?_, ?_, ?_, ?_⟩
  · intro hw
    have h2 := (List.mem_filter.mp hw).2
    rw [hinv] at h2
    exact Bool.false_ne_true h2
  · exact List.mem_filter.mpr ⟨hmemP, by rw [hinv]; rfl⟩
  · exact List.mem_map_of_mem invalidSkuLog (List.mem_filter.mpr ⟨hmemP, by rw [hinv]; rfl⟩)
  · rw [List.length_map]

/-- Witness for C6: a raw product with the whitespace-only SKU "   " is kept
out of the written set, counted invalid, and logged. -/
theorem c6_blank_sku_excluded_witness :
    processRaw { id := some "7", sku := some "   ", name := some "B" } ∉
      (fetchBigCommerceProducts
        [{ id := some "7", sku := some "   ", name := some "B" }]).written ∧
    processRaw { id := some "7", sku := some "   ", name := some "B" } ∈
      (fetchBigCommerceProducts
        [{ id := some "7", sku := some "   ", name := some "B" }]).invalidProducts ∧
    invalidSkuLog (processRaw { id := some "7", sku := some "   ", name := some "B" }) ∈
      (fetchBigCommerceProducts
        [{ id := some "7", sku := some "   ", name := some "B" }]).invalidLogs ∧
    (fetchBigCommerceProducts
        [{ id := some "7", sku := some "   ", name := some "B" }]).invalidLogs.length =
      (fetchBigCommerceProducts
        [{ id := some "7", sku := some "   ", name := some "B" }]).invalidProducts.length :=
  c6_blank_sku_excluded [{ id := some "7", sku := some "   ", name := some "B" }]
    { id := some "7", sku := some "   ", name := some "B" }
    (List.mem_singleton.mpr rfl) (by decide)

/-! ## Pagination helper lemmas -/

theorem paginateBCGo_succ {α : Type} (fetch : Nat → Except String (List α))
    (fuel page : Nat) (acc : List α) :
    paginateBCGo fetch (fuel + 1) page acc =
      match fetch page with
      | Except.error msg =>
          { allResults := acc, requests := [page], errorLogs := [bcErrorLog page msg] }
      | Except.ok data =>
          if data.length < bcPageLimit then
            { allResults := acc ++ data, requests := [page], errorLogs := [] }
          else
            { allResults := (paginateBCGo fetch fuel (page + 1) (acc ++ data)).allResults,
              requests := page :: (paginateBCGo fetch fuel (page + 1) (acc ++ data)).requests,
              errorLogs := (paginateBCGo fetch fuel (page + 1) (acc ++ data)).errorLogs } :=
  rfl

theorem paginateAvGo_succ {α : Type} (fetch : Nat → Except String (List α))
    (fuel skip : Nat) (acc : List α) :
    paginateAvGo fetch (fuel + 1) skip acc =
      match fetch skip with
      | Except.error msg =>
          { allResults := acc, requests := [skip], errorLogs := [avErrorLog skip msg] }
      | Except.ok data =>
          if data.length < avalaraTop then
            { allResults := acc ++ data, requests := [skip], errorLogs := [] }
          else
            { allResults :=
                (paginateAvGo fetch fuel (skip + avalaraTop) (acc ++ data)).allResults,
              requests :=
                skip :: (paginateAvGo fetch fuel (skip + avalaraTop) (acc ++ data)).requests,
              errorLogs :=
                (paginateAvGo fetch fuel (skip + avalaraTop) (acc ++ data)).errorLogs } :=
  rfl

theorem paginateBCGo_stabilize {α : Type} (fetch : Nat → Except String (List α)) :
    ∀ (k page : Nat) (acc data : List α), fetch (page + k) = Except.ok data →
      data.length < bcPageLimit →
      ∀ fuel, k + 1 ≤ fuel →
        paginateBCGo fetch fuel page acc = paginateBCGo fetch (k + 1) page acc := by
  intro k
  induction k with
  | zero =>
    intro page acc data hfetch hshort fuel hfuel
    obtain ⟨f, rfl⟩ : ∃ f, fuel = f + 1 := ⟨fuel - 1, by omega⟩
    rw [Nat.add_zero] at hfetch
    rw [paginateBCGo_succ fetch f, paginateBCGo_succ fetch 0, hfetch]
    dsimp only
    rw [if_pos hshort, if_pos hshort]
  | succ k ih =>
    intro page acc data hfetch hshort fuel hfuel
    obtain ⟨f, rfl⟩ : ∃ f, fuel = f + 1 := ⟨fuel - 1, by omega⟩
    have hfetch' : fetch ((page + 1) + k) = Except.ok data := by
      have e : (page + 1) + k = page + (k + 1) := by omega
      rw [e]
      exact hfetch
    rw [paginateBCGo_succ fetch f, paginateBCGo_succ fetch (k + 1)]
    cases hstep : fetch page with
    | error msg => rfl
    | ok d =>
      dsimp only
      by_cases hlen : d.length < bcPageLimit
      · rw [if_pos hlen, if_pos hlen]
      · rw [if_neg hlen, if_neg hlen,
          ih (page + 1) (acc ++ d) data hfetch' hshort f (by omega)]

theorem paginateAvGo_stabilize {α : Type} (fetch : Nat → Except String (List α)) :
    ∀ (k skip : Nat) (acc data : List α), fetch (skip + avalaraTop * k) = Except.ok data →
      data.length < avalaraTop →
      ∀ fuel, k + 1 ≤ fuel →
        paginateAvGo fetch fuel skip acc = paginateAvGo fetch (k + 1) skip acc := by
  intro k
  induction k with
  | zero =>
    intro skip acc data hfetch hshort fuel hfuel
    obtain ⟨f, rfl⟩ : ∃ f, fuel = f + 1 := ⟨fuel - 1, by omega⟩
    rw [Nat.mul_zero, Nat.add_zero] at hfetch
    rw [paginateAvGo_succ fetch f, paginateAvGo_succ fetch 0, hfetch]
    dsimp only
    rw [if_pos hshort, if_pos hshort]
  | succ k ih =>
    intro skip acc data hfetch hshort fuel hfuel
    obtain ⟨f, rfl⟩ : ∃ f, fuel = f + 1 := ⟨fuel - 1, by omega⟩
    have hfetch' : fetch ((skip + avalaraTop) + avalaraTop * k) = Except.ok data := by
      have e : (skip + avalaraTop) + avalaraTop * k = skip + avalaraTop * (k + 1) := by ring
      rw [e]
      exact hfetch
    rw [paginateAvGo_succ fetch f, paginateAvGo_succ fetch (k + 1)]
    cases hstep : fetch skip with
    | error msg => rfl
    | ok d =>
      dsimp only
      by_cases hlen : d.length < avalaraTop
      · rw [if_pos hlen, if_pos hlen]
      · rw [if_neg hlen, if_neg hlen,
          ih (skip + avalaraTop) (acc ++ d) data hfetch' hshort f (by omega)]

theorem paginateBCGo_fail_keeps {α : Type} (fetch : Nat → Except String (List α)) (msg : String) :
    ∀ (k : Nat) (data : Nat → List α) (page : Nat) (acc : List α),
      (∀ i, i < k → fetch (page + i) = Except.ok (data i) ∧ bcPageLimit ≤ (data i).length) →
      fetch (page + k) = Except.error msg →
      ∀ fuel, k + 1 ≤ fuel →
        paginateBCGo fetch fuel page acc =
          { allResults := acc ++ ((List.range k).map data).flatten,
            requests := (List.range (k + 1)).map (fun i => page + i),
            errorLogs := [bcErrorLog (page + k) msg] } := by
  intro k
  induction k with
  | zero =>
    intro data page acc hfull hfail fuel hfuel
    obtain ⟨f, rfl⟩ : ∃ f, fuel = f + 1 := ⟨fuel - 1, by omega⟩
    rw [Nat.add_zero] at hfail
    rw [paginateBCGo_succ fetch f, hfail]
    simp [List.range_succ]
  | succ k ih =>
    intro data page acc hfull hfail fuel hfuel
    obtain ⟨f, rfl⟩ : ∃ f, fuel = f + 1 := ⟨fuel - 1, by omega⟩
    have h0 := hfull 0 (by omega)
    have hstep : fetch page = Except.ok (data 0) := by
      have h := h0.1
      rwa [Nat.add_zero] at h
    have hlen : ¬ (data 0).length < bcPageLimit := by
      have h := h0.2
      omega
    have hfull' : ∀ i, i < k → fetch ((page + 1) + i) = Except.ok (data (i + 1)) ∧
        bcPageLimit ≤ (data (i + 1)).length := by
      intro i hi
      have h := hfull (i + 1) (by omega)
      have e : page + (i + 1) = (page + 1) + i := by omega
      rwa [e] at h
    have hfail' : fetch ((page + 1) + k) = Except.error msg := by
      have e : page + (k + 1) = (page + 1) + k := by omega
      rwa [e] at hfail
    rw [paginateBCGo_succ fetch f, hstep]
    dsimp only
    rw [if_neg hlen,
      ih (fun i => data (i + 1)) (page + 1) (acc ++ data 0) hfull' hfail' f (by omega)]
    have hjoin : ((List.range (k + 1)).map data).flatten =
        data 0 ++ ((List.range k).map (fun i => data (i + 1))).flatten := by
      rw [List.range_succ_eq_map, List.map_cons, List.flatten_cons, List.map_map]
      rfl
    have hcomp : ((fun i => page + i) ∘ Nat.succ) = (fun i => (page + 1) + i) := by
      funext i
      show page + Nat.succ i = (page + 1) + i
      omega
    have hreq : (List.range (k + 1 + 1)).map (fun i => page + i) =
        page :: (List.range (k + 1)).map (fun i => (page + 1) + i) := by
      rw [List.range_succ_eq_map, List.map_cons, List.map_map, hcomp, Nat.add_zero]
    have hlog : (page + 1) + k = page + (k + 1) := by omega
    rw [hjoin, hreq, hlog, List.append_assoc]

theorem paginateAvGo_fail_keeps {α : Type} (fetch : Nat → Except String (List α)) (msg : String) :
    ∀ (k : Nat) (data : Nat → List α) (skip : Nat) (acc : List α),
      (∀ i, i < k → fetch (skip + avalaraTop * i) = Except.ok (data i) ∧
        avalaraTop ≤ (data i).length) →
      fetch (skip + avalaraTop * k) = Except.error msg →
      ∀ fuel, k + 1 ≤ fuel →
        paginateAvGo fetch fuel skip acc =
          { allResults := acc ++ ((List.range k).map data).flatten,
            requests := (List.range (k + 1)).map (fun i => skip + avalaraTop * i),
            errorLogs := [avErrorLog (skip + avalaraTop * k) msg] } := by
  intro k
  induction k with
  | zero =>
    intro data skip acc hfull hfail fuel hfuel
    obtain ⟨f, rfl⟩ : ∃ f, fuel = f + 1 := ⟨fuel - 1, by omega⟩
    rw [Nat.mul_zero, Nat.add_zero] at hfail
    rw [paginateAvGo_succ fetch f, hfail]
    simp [List.range_succ]
  | succ k ih =>
    intro data skip acc hfull hfail fuel hfuel
    obtain ⟨f, rfl⟩ : ∃ f, fuel = f + 1 := ⟨fuel - 1, by omega⟩
    have h0 := hfull 0 (by omega)
    have hstep : fetch skip = Except.ok (data 0) := by
      have h := h0.1
      rwa [Nat.mul_zero, Nat.add_zero] at h
    have hlen : ¬ (data 0).length < avalaraTop := by
      have h := h0.2
      omega
    have hfull' : ∀ i, i < k → fetch ((skip + avalaraTop) + avalaraTop * i) =
        Except.ok (data (i + 1)) ∧ avalaraTop ≤ (data (i + 1)).length := by
      intro i hi
      have h := hfull (i + 1) (by omega)
      have e : skip + avalaraTop * (i + 1) = (skip + avalaraTop) + avalaraTop * i := by ring
      rwa [e] at h
    have hfail' : fetch ((skip + avalaraTop) + avalaraTop * k) = Except.error msg := by
      have e : skip + avalaraTop * (k + 1) = (skip + avalaraTop) + avalaraTop * k := by ring
      rwa [e] at hfail
    rw [paginateAvGo_succ fetch f, hstep]
    dsimp only
    rw [if_neg hlen,
      ih (fun i => data (i + 1)) (skip + avalaraTop) (acc ++ data 0) hfull' hfail' f (by omega)]
    have hjoin : ((List.range (k + 1)).map data).flatten =
        data 0 ++ ((List.range k).map (fun i => data (i + 1))).flatten := by
      rw [List.range_succ_eq_map, List.map_cons, List.flatten_cons, List.map_map]
      rfl
    have hcomp : ((fun i => skip + avalaraTop * i) ∘ Nat.succ) =
        (fun i => (skip + avalaraTop) + avalaraTop * i) := by
      funext i
      show skip + avalaraTop * (i + 1) = (skip + avalaraTop) + avalaraTop * i
      ring
    have hreq : (List.range (k + 1 + 1)).map (fun i => skip + avalaraTop * i) =
        skip :: (List.range (k + 1)).map (fun i => (skip + avalaraTop) + avalaraTop * i) := by
      rw [List.range_succ_eq_map, List.map_cons, List.map_map, hcomp, Nat.mul_zero,
        Nat.add_zero]
    have hlog : (skip + avalaraTop) + avalaraTop * k = skip + avalaraTop * (k + 1) := by ring
    rw [hjoin, hreq, hlog, List.append_assoc]

/-- C7: in both pagination loops, a returned page shorter than the page size
ends the loop right after that page with no further request; and once some
reachable page is short, the run is fuel-independent above that page, i.e.
the unbounded `while (true)` loop terminates there. -/
theorem c7_short_page_stops :
    (∀ (α : Type) (fetch : Nat → Except String (List α)) (fuel page : Nat)
        (acc data : List α),
        fetch page = Except.ok data → data.length < bcPageLimit →
        paginateBCGo fetch (fuel + 1) page acc =
          { allResults := acc ++ data, requests := [page], errorLogs := [] }) ∧
    (∀ (α : Type) (fetch : Nat → Except String (List α)) (fuel skip : Nat)
        (acc data : List α),
        fetch skip = Except.ok data → data.length < avalaraTop →
        paginateAvGo fetch (fuel + 1) skip acc =
          { allResults := acc ++ data, requests := [skip], errorLogs := [] }) ∧
    (∀ (α : Type) (fetch : Nat → Except String (List α)) (k page : Nat)
        (acc data : List α),
        fetch (page + k) = Except.ok data → data.length < bcPageLimit →
        ∀ fuel, k + 1 ≤ fuel →
          paginateBCGo fetch fuel page acc = paginateBCGo fetch (k + 1) page acc) ∧
    (∀ (α : Type) (fetch : Nat → Except String (List α)) (k skip : Nat)
        (acc data : List α),
        fetch (skip + avalaraTop * k) = Except.ok data → data.length < avalaraTop →
        ∀ fuel, k + 1 ≤ fuel →
          paginateAvGo fetch fuel skip acc = paginateAvGo fetch (k + 1) skip acc) := by
  refine ⟨?_, ?_, ?_, ?_⟩
  · intro α fetch fuel page acc data hfetch hshort
    rw [paginateBCGo_succ fetch fuel, hfetch]
    dsimp only
    rw [if_pos hshort]
  · intro α fetch fuel skip acc data hfetch hshort
    rw [paginateAvGo_succ fetch fuel, hfetch]
    dsimp only
    rw [if_pos hshort]
  · intro α fetch k page acc data hfetch hshort fuel hfuel
    exact paginateBCGo_stabilize fetch k page acc data hfetch hshort fuel hfuel
  · intro α fetch k skip acc data hfetch hshort fuel hfuel
    exact paginateAvGo_stabilize fetch k skip acc data hfetch hshort fuel hfuel

/-- Witness for C7: with a fetch oracle whose first page is already short,
both loops stop after one request, and extra fuel changes nothing. -/
theorem c7_short_page_stops_witness :
    paginateBCGo (fun _ => Except.ok ([0] : List Nat)) (0 + 1) 1 [] =
      { allResults := [] ++ [0], requests := [1], errorLogs := [] } ∧
    paginateAvGo (fun _ => Except.ok ([0] : List Nat)) (0 + 1) 0 [] =
      { allResults := [] ++ [0], requests := [0], errorLogs := [] } ∧
    paginateBCGo (fun _ => Except.ok ([0] : List Nat)) 5 1 [] =
      paginateBCGo (fun _ => Except.ok ([0] : List Nat)) (0 + 1) 1 [] ∧
    paginateAvGo (fun _ => Except.ok ([0] : List Nat)) 5 0 [] =
      paginateAvGo (fun _ => Except.ok ([0] : List Nat)) (0 + 1) 0 [] :=
  ⟨c7_short_page_stops.1 Nat (fun _ => Except.ok [0]) 0 1 [] [0] rfl (by decide),
   c7_short_page_stops.2.1 Nat (fun _ => Except.ok [0]) 0 0 [] [0] rfl (by decide),
   c7_short_page_stops.2.2.1 Nat (fun _ => Except.ok [0]) 0 1 [] [0] rfl (by decide)
     5 (by omega),
   c7_short_page_stops.2.2.2 Nat (fun _ => Except.ok [0]) 0 0 [] [0] rfl (by decide)
     5 (by omega)⟩

/-- C8: in both pagination loops, when the page request at the k-th step fails
after k full pages, the failure is logged, exactly the pages up to and
including the failing one are requested (no retry), and the records
accumulated from the earlier successful pages are still returned. -/
theorem c8_page_failure_keeps_results :
    (∀ (α : Type) (fetch : Nat → Except String (List α)) (data : Nat → List α)
        (k : Nat) (msg : String),
        (∀ i, i < k → fetch (1 + i) = Except.ok (data i) ∧
          bcPageLimit ≤ (data i).length) →
        fetch (1 + k) = Except.error msg →
        ∀ fuel, k + 1 ≤ fuel →
          paginateBigCommerce fetch fuel =
            { allResults := ((List.range k).map data).flatten,
              requests := (List.range (k + 1)).map (fun i => 1 + i),
              errorLogs := [bcErrorLog (1 + k) msg] }) ∧
    (∀ (α : Type) (fetch : Nat → Except String (List α)) (data : Nat → List α)
        (k : Nat) (msg : String),
        (∀ i, i < k → fetch (avalaraTop * i) = Except.ok (data i) ∧
          avalaraTop ≤ (data i).length) →
        fetch (avalaraTop * k) = Except.error msg →
        ∀ fuel, k + 1 ≤ fuel →
          paginateAvalara fetch fuel =
            { allResults := ((List.range k).map data).flatten,
              requests := (List.range (k + 1)).map (fun i => avalaraTop * i),
              errorLogs := [avErrorLog (avalaraTop * k) msg] }) := by
  constructor
  · intro α fetch data k msg hfull hfail fuel hfuel
    unfold paginateBigCommerce
    rw [paginateBCGo_fail_keeps fetch msg k data 1 [] hfull hfail fuel hfuel,
      List.nil_append]
  · intro α fetch data k msg hfull hfail fuel hfuel
    have hfull0 : ∀ i, i < k → fetch (0 + avalaraTop * i) = Except.ok (data i) ∧
        avalaraTop ≤ (data i).length := by
      intro i hi
      rw [Nat.zero_add]
      exact hfull i hi
    have hfail0 : fetch (0 + avalaraTop * k) = Except.error msg := by
      rw [Nat.zero_add]
      exact hfail
    have hfun : (fun i => 0 + avalaraTop * i) = (fun i => avalaraTop * i) := by
      funext i
      rw [Nat.zero_add]
    unfold paginateAvalara
    rw [paginateAvGo_fail_keeps fetch msg k data 0 [] hfull0 hfail0 fuel hfuel,
      List.nil_append, hfun, Nat.zero_add]

/-- Witness for C8: when the very first request fails, both loops return the
empty accumulation, a single request, and the logged failure line. -/
theorem c8_page_failure_keeps_results_witness :
    paginateBigCommerce (fun _ => (Except.error "boom" : Except String (List Nat))) 1 =
      { allResults := ((List.range 0).map (fun _ => ([] : List Nat))).flatten,
        requests := (List.range 1).map (fun i => 1 + i),
        errorLogs := [bcErrorLog (1 + 0) "boom"] } ∧
    paginateAvalara (fun _ => (Except.error "boom" : Except String (List Nat))) 1 =
      { allResults := ((List.range 0).map (fun _ => ([] : List Nat))).flatten,
        requests := (List.range 1).map (fun i => avalaraTop * i),
        errorLogs := [avErrorLog (avalaraTop * 0) "boom"] } :=
  ⟨c8_page_failure_keeps_results.1 Nat (fun _ => Except.error "boom") (fun _ => []) 0 "boom"
      (fun i hi => absurd hi (by omega)) rfl 1 (by omega),
   c8_page_failure_keeps_results.2 Nat (fun _ => Except.error "boom") (fun _ => []) 0 "boom"
      (fun i hi => absurd hi (by omega)) rfl 1 (by omega)⟩
